import Mathlib

/-!
# Verification of the geez-calendar conversion core

Shallow embedding of the repository `mgemoraw/geez-calendar` (Python) in Lean 4.

The repository contains two independent implementations of the
Ethiopian ↔ Gregorian date conversion through Julian Day Numbers (JDN):

* `src/core/ethiopian_date.py` — free functions `_is_ethiopian_leap_year`,
  `_ethiopian_to_jdn`, `_jdn_to_ethiopian`, `_gregorian_to_jdn`,
  `_jdn_to_gregorian`, `to_gregorian`, `to_ethiopian`
  (epoch constant `ETHIOPIAN_EPOCH = 1723856`);
* `src/core/calendar.py` — functions `_eth_to_jdn`, `_jdn_to_eth`,
  `_greg_to_jdn`, `_jdn_to_greg` and the `NamedTuple` wrappers
  `EthDate` / `GregDate` (epoch constant `_ETHIOPIAN_EPOCH = 1724220`),
  delegating the Gregorian leg to Python's `datetime.date`.

Conventions of the embedding:

* Python integers are `Int`.
* Python `//` and `%` (floor division / nonnegative remainder) are embedded as
  Lean's `/` and `%` on `Int` (`Int.ediv` / `Int.emod`).  Every divisor in the
  source is a positive constant, and for a positive divisor Euclidean division
  coincides with Python's floor division, and `Int.emod` with Python's `%`.
* A Python function that can raise (`ValueError` from explicit validation or
  from the `datetime.date` constructor / `fromordinal`) is embedded as an
  `Option`-valued function; `none` is the raising outcome.
* Python tuples `(year, month, day)` are `Int × Int × Int`.
-/

set_option linter.unusedVariables false

/-! ## Host environment: Python `datetime.date`

`calendar.py` delegates its Gregorian leg to Python's `datetime.date`
(`PyDate(y, m, d).toordinal()` and `PyDate.fromordinal`).  That code is part
of the host environment, not of the repository, so it is modelled here from
its documented behaviour: the proleptic Gregorian calendar with
`date(1, 1, 1).toordinal() == 1` and years restricted to `1..9999`.
-/

namespace PyDatetime

/-- Modelled from the spec: the host environment's proleptic Gregorian
leap-year rule (Python `datetime` / `calendar.isleap`). -/
def isLeapYear (y : Int) : Bool :=
  y % 4 == 0 && (y % 100 != 0 || y % 400 == 0)

/-- Modelled from the spec: days in a Gregorian month per the host
environment's `datetime` month-length table. -/
def daysInMonth (y m : Int) : Int :=
  if m = 2 then (if isLeapYear y then 29 else 28)
  else if m = 4 ∨ m = 6 ∨ m = 9 ∨ m = 11 then 30
  else 31

/-- Modelled from the spec: days before the first of month `m` in year `y`,
the host environment's `_DAYS_BEFORE_MONTH` table
(0, 31, 59, 90, 120, 151, 181, 212, 243, 273, 304, 334, plus one from March
on in a leap year) written in closed form. -/
def daysBeforeMonth (y m : Int) : Int :=
  if m ≤ 2 then 31 * (m - 1)
  else (153 * (m - 3) + 2) / 5 + 59 + (if isLeapYear y then 1 else 0)

/-- Modelled from the spec: the host environment's validity check performed by
the `datetime.date` constructor (`MINYEAR = 1`, `MAXYEAR = 9999`). -/
def validDate (y m d : Int) : Prop :=
  1 ≤ y ∧ y ≤ 9999 ∧ 1 ≤ m ∧ m ≤ 12 ∧ 1 ≤ d ∧ d ≤ daysInMonth y m

instance validDate.decidable (y m d : Int) : Decidable (validDate y m d) := by
  unfold validDate
  exact inferInstance

/-- Modelled from the spec: Python's `date.toordinal` (proleptic Gregorian
rata die, `date(1, 1, 1).toordinal() = 1`), as computed by CPython's
`_ymd2ord`. -/
def toOrdinal (y m d : Int) : Int :=
  365 * (y - 1) + (y - 1) / 4 - (y - 1) / 100 + (y - 1) / 400
    + daysBeforeMonth y m + d

/-- The greatest valid ordinal, `date(9999, 12, 31).toordinal()`. -/
def maxOrdinal : Int := 3652059

/-- Modelled from the spec: the leap-day-free days-before-month table
`_DAYS_BEFORE_MONTH` of the host environment's `datetime`, in closed form. -/
def daysBeforeMonthTable (m : Int) : Int :=
  if m ≤ 2 then 31 * (m - 1)
  else (153 * (m - 3) + 2) / 5 + 59

/-- Modelled from the spec: the leap-day-free month-length table
`_DAYS_IN_MONTH` of the host environment's `datetime`, in closed form. -/
def daysInMonthTable (m : Int) : Int :=
  if m = 2 then 28
  else if m = 4 ∨ m = 6 ∨ m = 9 ∨ m = 11 then 30
  else 31

/-- Modelled from the spec: the date fields computed by Python's
`date.fromordinal`, following CPython's `_ord2ymd` (the 400/100/4/1-year
cycle decomposition with the end-of-cycle branch and the month estimate
`(n + 50) >> 5` corrected by the preceding-days table).
`fromOrdinalFields_correct` below proves this is a valid right inverse of
`toOrdinal`, which pins it down extensionally: any valid right inverse
agrees with the host's `fromordinal` on the whole ordinal range because
`toOrdinal` is injective on valid dates (`toOrdinal_inj`). -/
def fromOrdinalFields (n : Int) : Int × Int × Int :=
  let n0 := n - 1
  let n400 := n0 / 146097
  let r400 := n0 % 146097
  let n100 := r400 / 36524
  let r100 := r400 % 36524
  let n4 := r100 / 1461
  let r4 := r100 % 1461
  let n1 := r4 / 365
  let r1 := r4 % 365
  let year := n400 * 400 + 1 + n100 * 100 + n4 * 4 + n1
  if n1 = 4 ∨ n100 = 4 then (year - 1, 12, 31)
  else
    let leap : Bool := n1 == 3 && (!(n4 == 24) || n100 == 3)
    let month := (r1 + 50) / 32
    let preceding := daysBeforeMonthTable month + (if 2 < month ∧ leap then 1 else 0)
    if r1 < preceding then
      let month2 := month - 1
      let preceding2 := preceding -
        (daysInMonthTable month2 + (if month2 = 2 ∧ leap then 1 else 0))
      (year, month2, r1 - preceding2 + 1)
    else
      (year, month, r1 - preceding + 1)

/-- Modelled from the spec: Python's `date.fromordinal`, which raises for
ordinals outside `1 .. maxOrdinal`. -/
def fromOrdinal (n : Int) : Option (Int × Int × Int) :=
  if 1 ≤ n ∧ n ≤ maxOrdinal then some (fromOrdinalFields n) else none

end PyDatetime

/-! ## `src/core/ethiopian_date.py` -/

namespace EthiopianDatePy

/-- `ETHIOPIAN_EPOCH = 1723856` (`ethiopian_date.py`). -/
def ETHIOPIAN_EPOCH : Int := 1723856

/-- `_is_ethiopian_leap_year`: `(year + 1) % 4 == 0`. -/
def _is_ethiopian_leap_year (year : Int) : Bool :=
  (year + 1) % 4 == 0

/-- `_ethiopian_to_jdn`: no validation, returns
`EPOCH + 365*(year-1) + (year-1)//4 + 30*(month-1) + day`. -/
def _ethiopian_to_jdn (year month day : Int) : Int :=
  ETHIOPIAN_EPOCH + 365 * (year - 1) + (year - 1) / 4 + 30 * (month - 1) + day

/-- `_jdn_to_ethiopian`, including its `month > 13` fix-up branch. -/
def _jdn_to_ethiopian (jdn : Int) : Int × Int × Int :=
  let r := (jdn - ETHIOPIAN_EPOCH) % 1461
  let n := r % 365 + 365 * (r / 1460)
  let year := 4 * ((jdn - ETHIOPIAN_EPOCH) / 1461) + r / 365 - r / 1460
  let month := n / 30 + 1
  let day := n % 30 + 1
  if month > 13 then
    let day2 := n % 30 + 1 + 5
    let day3 :=
      if _is_ethiopian_leap_year year then day2
      else if day2 > 5 then 5 else day2
    (year, 13, day3)
  else
    (year, month, day)

/-- `_gregorian_to_jdn`: the standard astronomical Gregorian→JDN formula. -/
def _gregorian_to_jdn (year month day : Int) : Int :=
  let a := (14 - month) / 12
  let y := year + 4800 - a
  let m := month + 12 * a - 3
  day + (153 * m + 2) / 5 + 365 * y + y / 4 - y / 100 + y / 400 - 32045

/-- `_jdn_to_gregorian`: the Fliegel–Van Flandern JDN→Gregorian algorithm. -/
def _jdn_to_gregorian (jdn : Int) : Int × Int × Int :=
  let a := jdn + 32044
  let b := (4 * a + 3) / 146097
  let c := a - 146097 * b / 4
  let d := (4 * c + 3) / 1461
  let e := c - 1461 * d / 4
  let m := (5 * e + 2) / 153
  let day := e - (153 * m + 2) / 5 + 1
  let month := m + 3 - 12 * (m / 10)
  let year := 100 * b + d - 4800 + m / 10
  (year, month, day)

/-- Public `to_gregorian`: `_jdn_to_gregorian ∘ _ethiopian_to_jdn`. -/
def to_gregorian (year month day : Int) : Int × Int × Int :=
  _jdn_to_gregorian (_ethiopian_to_jdn year month day)

/-- Public `to_ethiopian`: `_jdn_to_ethiopian ∘ _gregorian_to_jdn`. -/
def to_ethiopian (year month day : Int) : Int × Int × Int :=
  _jdn_to_ethiopian (_gregorian_to_jdn year month day)

end EthiopianDatePy

/-! ## `src/core/calendar.py` -/

namespace CalendarPy

/-- `_ETHIOPIAN_EPOCH = 1724220` (`calendar.py`). -/
def _ETHIOPIAN_EPOCH : Int := 1724220

/-- `_eth_to_jdn`: raises `ValueError` unless `1 <= month <= 13` and
`1 <= day <= 30`, and additionally when `month == 13 and day > 6`;
otherwise returns `EPOCH + 365*(year-1) + year//4 + 30*(month-1) + day - 1`. -/
def _eth_to_jdn (year month day : Int) : Option Int :=
  if ¬ (1 ≤ month ∧ month ≤ 13 ∧ 1 ≤ day ∧ day ≤ 30) then none
  else if month = 13 ∧ day > 6 then none
  else some (_ETHIOPIAN_EPOCH + 365 * (year - 1) + year / 4
    + 30 * (month - 1) + day - 1)

/-- `_jdn_to_eth`: cycle arithmetic, no fix-up branch. -/
def _jdn_to_eth (jdn : Int) : Int × Int × Int :=
  let r := (jdn - _ETHIOPIAN_EPOCH) % 1461
  let n := r % 365 + 365 * (r / 1460)
  let year := 4 * ((jdn - _ETHIOPIAN_EPOCH) / 1461) + r / 365 - r / 1460
  let month := n / 30 + 1
  let day := n % 30 + 1
  (year, month, day)

/-- `_greg_to_jdn`: `PyDate(year, month, day).toordinal() + 1721425`
(the constructor raises on invalid dates). -/
def _greg_to_jdn (year month day : Int) : Option Int :=
  if PyDatetime.validDate year month day then
    some (PyDatetime.toOrdinal year month day + 1721425)
  else none

/-- `_jdn_to_greg`: `PyDate.fromordinal(jdn - 1721425)`. -/
def _jdn_to_greg (jdn : Int) : Option (Int × Int × Int) :=
  PyDatetime.fromOrdinal (jdn - 1721425)

/-- `EthDate` (`NamedTuple` of three ints). -/
structure EthDate where
  year : Int
  month : Int
  day : Int
deriving DecidableEq, Repr

/-- `GregDate` (`NamedTuple` of three ints). -/
structure GregDate where
  year : Int
  month : Int
  day : Int
deriving DecidableEq, Repr

/-- `EthDate.to_gregorian`: `_eth_to_jdn`, then `_jdn_to_greg`, then
`GregDate.from_py_date`.  A `ValueError` in either step propagates. -/
def EthDate.to_gregorian (e : EthDate) : Option GregDate :=
  (_eth_to_jdn e.year e.month e.day).bind fun jdn =>
    (_jdn_to_greg jdn).map fun t => ⟨t.1, t.2.1, t.2.2⟩

/-- `EthDate.from_gregorian`: `_greg_to_jdn`, then `_jdn_to_eth`. -/
def EthDate.from_gregorian (g : GregDate) : Option EthDate :=
  (_greg_to_jdn g.year g.month g.day).map fun jdn =>
    let t := _jdn_to_eth jdn
    ⟨t.1, t.2.1, t.2.2⟩

/-- `GregDate.to_ethiopian`: `_greg_to_jdn`, then `_jdn_to_eth`. -/
def GregDate.to_ethiopian (g : GregDate) : Option EthDate :=
  (_greg_to_jdn g.year g.month g.day).map fun jdn =>
    let t := _jdn_to_eth jdn
    ⟨t.1, t.2.1, t.2.2⟩

end CalendarPy

/-! ## Specification-side definitions

These definitions follow the spec's words (`spec.md` §4.2/§4.3), for
comparison with the implementations above. -/

/-- The Ethiopian-date→JDN formula exactly as the spec states it (§4.2):
`jdn = EPOCH + 365*(year-1) + floor((year-1)/4) + 30*(month-1) + day - 1`. -/
def specEthToJdn (epoch year month day : Int) : Int :=
  epoch + 365 * (year - 1) + (year - 1) / 4 + 30 * (month - 1) + day - 1

/-- The JDN→Ethiopian algorithm exactly as the spec (§4.3) and claim C4 state
it, including the final `+ 1` on the year. -/
def specJdnToEth (epoch jdn : Int) : Int × Int × Int :=
  let r := (jdn - epoch) % 1461
  let n := r % 365 + 365 * (r / 1460)
  let year := 4 * ((jdn - epoch) / 1461) + r / 365 - r / 1460 + 1
  (year, n / 30 + 1, n % 30 + 1)

/-- A structurally valid Ethiopian date (spec §3): month `1..13`, day `1..30`
for months `1..12`, and day at most 6 or 5 in month 13 according to the
leap-year predicate. -/
def validEthDate (y m d : Int) : Prop :=
  1 ≤ m ∧ m ≤ 13 ∧ 1 ≤ d ∧ (m ≤ 12 → d ≤ 30) ∧
    (m = 13 → d ≤ (if EthiopianDatePy._is_ethiopian_leap_year y then 6 else 5))

instance validEthDate.decidable (y m d : Int) : Decidable (validEthDate y m d) := by
  unfold validEthDate
  exact inferInstance

/-- Calendar order: lexicographic on (year, month, day) triples. -/
def lexLt3 (y1 m1 d1 y2 m2 d2 : Int) : Prop :=
  y1 < y2 ∨ (y1 = y2 ∧ (m1 < m2 ∨ (m1 = m2 ∧ d1 < d2)))

instance lexLt3.decidable (y1 m1 d1 y2 m2 d2 : Int) :
    Decidable (lexLt3 y1 m1 d1 y2 m2 d2) := by
  unfold lexLt3
  exact inferInstance

/-! ## Helper lemmas -/

/-- The leap-year predicate in arithmetic form. -/
theorem is_leap_iff (y : Int) :
    EthiopianDatePy._is_ethiopian_leap_year y = true ↔ y % 4 = 3 := by
  unfold EthiopianDatePy._is_ethiopian_leap_year
  rw [beq_iff_eq]
  omega

/-- The host leap-year predicate in arithmetic form. -/
theorem py_isLeapYear_iff (y : Int) :
    PyDatetime.isLeapYear y = true ↔
      (y % 4 = 0 ∧ (y % 100 ≠ 0 ∨ y % 400 = 0)) := by
  unfold PyDatetime.isLeapYear
  rw [Bool.and_eq_true, beq_iff_eq, Bool.or_eq_true, bne_iff_ne, beq_iff_eq]

/-- The branch-free cycle arithmetic shared by `_jdn_to_ethiopian`
(`ethiopian_date.py`) and `_jdn_to_eth` (`calendar.py`), parametrised by the
epoch constant. -/
def jdnToEthFields (epoch jdn : Int) : Int × Int × Int :=
  let r := (jdn - epoch) % 1461
  let n := r % 365 + 365 * (r / 1460)
  (4 * ((jdn - epoch) / 1461) + r / 365 - r / 1460, n / 30 + 1, n % 30 + 1)

theorem jdn_to_eth_eq_fields (jdn : Int) :
    CalendarPy._jdn_to_eth jdn = jdnToEthFields CalendarPy._ETHIOPIAN_EPOCH jdn := rfl

/-- The `month > 13` fix-up branch in `_jdn_to_ethiopian` is dead code: the
raw month is always at most 13, so the function coincides with the
branch-free arithmetic. -/
theorem jdn_to_ethiopian_eq_fields (jdn : Int) :
    EthiopianDatePy._jdn_to_ethiopian jdn =
      jdnToEthFields EthiopianDatePy.ETHIOPIAN_EPOCH jdn := by
  unfold EthiopianDatePy._jdn_to_ethiopian jdnToEthFields
  dsimp only
  split
  · rename_i hgt
    exfalso
    omega
  · rfl

/-- Structural validity of the branch-free cycle arithmetic: month in 1..13,
day in 1..30, and day 6 of month 13 only when the produced year is ≡ 3 mod 4
(the code's leap years). -/
theorem jdnToEthFields_valid (epoch jdn : Int) :
    1 ≤ (jdnToEthFields epoch jdn).2.1 ∧ (jdnToEthFields epoch jdn).2.1 ≤ 13 ∧
    1 ≤ (jdnToEthFields epoch jdn).2.2 ∧ (jdnToEthFields epoch jdn).2.2 ≤ 30 ∧
    ((jdnToEthFields epoch jdn).2.1 = 13 →
      (jdnToEthFields epoch jdn).2.2 ≤ 5 ∨
        ((jdnToEthFields epoch jdn).2.2 = 6 ∧ (jdnToEthFields epoch jdn).1 % 4 = 3)) := by
  unfold jdnToEthFields
  dsimp only
  omega

/-! ## Claim theorems -/

/-- C1 (code bug): the round trip fails on the code.  At the Ethiopian date
(2016, 1, 1), `to_gregorian` yields (2022, 9, 12) and feeding that back to
`to_ethiopian` yields (2015, 1, 2), not (2016, 1, 1); the `EthDate`/`GregDate`
method route likewise returns (2015, 1, 2).  The repository's own tests and
`main.py` require the anchor pair (2016,1,1) ↔ (2023,9,11), so the claim
matches the intent and the code is wrong. -/
theorem c1_roundtrip_fails_at_2016_1_1 :
    EthiopianDatePy.to_gregorian 2016 1 1 = (2022, 9, 12) ∧
    EthiopianDatePy.to_ethiopian 2022 9 12 = (2015, 1, 2) ∧
    CalendarPy.EthDate.to_gregorian ⟨2016, 1, 1⟩ = some ⟨2023, 9, 11⟩ ∧
    CalendarPy.EthDate.from_gregorian ⟨2023, 9, 11⟩ = some ⟨2015, 1, 2⟩ := by
  refine ⟨by decide, by decide, by decide, by decide⟩

/-- C2 (code bug): the literal anchor scenario fails in three of the four
implementations.  `to_gregorian(2016,1,1) = (2022,9,12)`,
`to_ethiopian(2023,9,11) = (2015,13,6)`, and
`GregDate(2023,9,11).to_ethiopian() = (2015,1,2)`; only
`EthDate(2016,1,1).to_gregorian()` returns the claimed (2023, 9, 11). -/
theorem c2_anchor_fails :
    EthiopianDatePy.to_gregorian 2016 1 1 = (2022, 9, 12) ∧
    EthiopianDatePy.to_ethiopian 2023 9 11 = (2015, 13, 6) ∧
    CalendarPy.GregDate.to_ethiopian ⟨2023, 9, 11⟩ = some ⟨2015, 1, 2⟩ ∧
    CalendarPy.EthDate.to_gregorian ⟨2016, 1, 1⟩ = some ⟨2023, 9, 11⟩ := by
  refine ⟨by decide, by decide, by decide, by decide⟩

/-- C3 (counterexample): `_ethiopian_to_jdn` does not send (1, 1, 1) to the
epoch constant, contradicting the claimed formula (which has the `- 1`). -/
theorem c3_formula_counterexample :
    EthiopianDatePy._ethiopian_to_jdn 1 1 1 ≠ EthiopianDatePy.ETHIOPIAN_EPOCH ∧
    specEthToJdn EthiopianDatePy.ETHIOPIAN_EPOCH 1 1 1 = EthiopianDatePy.ETHIOPIAN_EPOCH := by
  decide

/-- C3 (amended): `_ethiopian_to_jdn` computes the spec's formula *plus one*
(the code drops the `- 1`, so (1,1,1) maps to EPOCH + 1), and `calendar.py`'s
`_eth_to_jdn` keeps the `- 1` but replaces `(year-1)//4` by `year//4`, so its
result differs from the spec formula by `year//4 - (year-1)//4`. -/
theorem c3_formula_amended :
    (∀ y m d : Int, EthiopianDatePy._ethiopian_to_jdn y m d =
      specEthToJdn EthiopianDatePy.ETHIOPIAN_EPOCH y m d + 1) ∧
    (∀ y m d j : Int, CalendarPy._eth_to_jdn y m d = some j →
      j = specEthToJdn CalendarPy._ETHIOPIAN_EPOCH y m d + (y / 4 - (y - 1) / 4)) := by
  constructor
  · intro y m d
    unfold EthiopianDatePy._ethiopian_to_jdn specEthToJdn
    ring
  · intro y m d j h
    unfold CalendarPy._eth_to_jdn at h
    split at h
    · exact absurd h (by simp)
    · split at h
      · exact absurd h (by simp)
      · unfold specEthToJdn
        rw [Option.some_inj] at h
        omega

/-- C3 witness: the amended relation at (2016, 1, 1) for `_eth_to_jdn`. -/
theorem c3_formula_amended_witness :
    CalendarPy._eth_to_jdn 2016 1 1 = some 2460199 ∧
    (2460199 : Int) = specEthToJdn CalendarPy._ETHIOPIAN_EPOCH 2016 1 1 +
      ((2016 : Int) / 4 - (2016 - 1) / 4) :=
  ⟨by decide, c3_formula_amended.2 2016 1 1 2460199 (by decide)⟩

/-- C5 (counterexample): `_eth_to_jdn` accepts Pagume day 6 of year 2016
although 2016 is not a leap year of the code's predicate, contradicting the
claimed leap-aware rejection rule. -/
theorem c5_validation_counterexample :
    (CalendarPy._eth_to_jdn 2016 13 6).isSome = true ∧
    EthiopianDatePy._is_ethiopian_leap_year 2016 = false := by
  decide

/-- C5 (amended): `ethiopian_date.py`'s `_ethiopian_to_jdn` performs no
validation at all (it returns its formula value on any input, e.g. month 14),
while `calendar.py`'s `_eth_to_jdn` fails exactly when month ∉ 1..13, day ∉
1..30, or month = 13 with day > 6 — independent of the leap year, so
(y, 13, 6) is accepted for every year. -/
theorem c5_validation_amended :
    (∀ y m d : Int, (CalendarPy._eth_to_jdn y m d).isSome ↔
      (1 ≤ m ∧ m ≤ 13 ∧ 1 ≤ d ∧ d ≤ 30 ∧ ¬ (m = 13 ∧ d > 6))) ∧
    (∀ y : Int, CalendarPy._eth_to_jdn y 14 1 = none ∧
      CalendarPy._eth_to_jdn y 1 31 = none ∧
      (CalendarPy._eth_to_jdn y 13 6).isSome = true ∧
      EthiopianDatePy._ethiopian_to_jdn y 14 1 =
        EthiopianDatePy.ETHIOPIAN_EPOCH + 365 * (y - 1) + (y - 1) / 4 + 391) := by
  constructor
  · intro y m d
    unfold CalendarPy._eth_to_jdn
    split
    · rename_i hc
      simp only [Option.isSome_none, Bool.false_eq_true, false_iff]
      tauto
    · split
      · rename_i hc hc2
        simp only [Option.isSome_none, Bool.false_eq_true, false_iff]
        tauto
      · rename_i hc hc2
        simp only [Option.isSome_some, true_iff]
        push_neg at hc
        tauto
  · intro y
    refine ⟨by unfold CalendarPy._eth_to_jdn; norm_num,
      by unfold CalendarPy._eth_to_jdn; norm_num,
      by unfold CalendarPy._eth_to_jdn; norm_num,
      by unfold EthiopianDatePy._ethiopian_to_jdn; ring⟩

/-- C6 (counterexample): the code's leap predicate disagrees with the claimed
reference table at both cited years. -/
theorem c6_leap_table_counterexample :
    ¬ (EthiopianDatePy._is_ethiopian_leap_year 2015 = false ∧
       EthiopianDatePy._is_ethiopian_leap_year 2016 = true) := by
  decide

/-- C6 (amended): the predicate `(year + 1) % 4 == 0` makes 2015 E.C. a leap
year and 2016 E.C. a common year (and likewise 2011, 2019, 2023 leap; 2017
common), the opposite of the spec's parenthetical table. -/
theorem c6_leap_table_amended :
    EthiopianDatePy._is_ethiopian_leap_year 2015 = true ∧
    EthiopianDatePy._is_ethiopian_leap_year 2016 = false ∧
    EthiopianDatePy._is_ethiopian_leap_year 2011 = true ∧
    EthiopianDatePy._is_ethiopian_leap_year 2019 = true ∧
    EthiopianDatePy._is_ethiopian_leap_year 2023 = true ∧
    EthiopianDatePy._is_ethiopian_leap_year 2017 = false := by
  decide

/-- C8 (counterexample): the free-function Gregorian→Ethiopian conversion
does not fail on the calendrically invalid date 30 February 2023 — it
silently returns an Ethiopian date. -/
theorem c8_gregorian_validation_counterexample :
    EthiopianDatePy.to_ethiopian 2023 2 30 = (2015, 6, 23) := by
  decide

/-- C4 (counterexample): at the epoch itself, `_jdn_to_ethiopian` does not
return what the claimed algorithm (with the final `+ 1` on the year) returns:
the code yields (0, 1, 1), the claimed formula (1, 1, 1). -/
theorem c4_year_offset_counterexample :
    EthiopianDatePy.ETHIOPIAN_EPOCH ≤ EthiopianDatePy.ETHIOPIAN_EPOCH ∧
    EthiopianDatePy._jdn_to_ethiopian EthiopianDatePy.ETHIOPIAN_EPOCH = (0, 1, 1) ∧
    specJdnToEth EthiopianDatePy.ETHIOPIAN_EPOCH EthiopianDatePy.ETHIOPIAN_EPOCH = (1, 1, 1) := by
  refine ⟨le_refl _, by decide, by decide⟩

/-- C4 (amended): for jdn ≥ EPOCH the code computes r, n, month and day as
claimed but omits the final `+ 1` on the year: both `_jdn_to_ethiopian` and
`calendar.py`'s `_jdn_to_eth` return a year one less than the claimed
algorithm, with identical month and day. -/
theorem c4_jdn_to_ethiopian_amended (jdn : Int)
    (h : EthiopianDatePy.ETHIOPIAN_EPOCH ≤ jdn) :
    (EthiopianDatePy._jdn_to_ethiopian jdn).1 =
      (specJdnToEth EthiopianDatePy.ETHIOPIAN_EPOCH jdn).1 - 1 ∧
    (EthiopianDatePy._jdn_to_ethiopian jdn).2 =
      (specJdnToEth EthiopianDatePy.ETHIOPIAN_EPOCH jdn).2 ∧
    (CalendarPy._ETHIOPIAN_EPOCH ≤ jdn →
      (CalendarPy._jdn_to_eth jdn).1 =
        (specJdnToEth CalendarPy._ETHIOPIAN_EPOCH jdn).1 - 1 ∧
      (CalendarPy._jdn_to_eth jdn).2 =
        (specJdnToEth CalendarPy._ETHIOPIAN_EPOCH jdn).2) := by
  rw [jdn_to_ethiopian_eq_fields, jdn_to_eth_eq_fields]
  unfold jdnToEthFields specJdnToEth
  dsimp only
  refine ⟨by omega, rfl, fun h2 => ⟨by omega, rfl⟩⟩

/-- C4 witness: the amended statement evaluated at the larger epoch constant
1724220, which is ≥ both epochs. -/
theorem c4_jdn_to_ethiopian_amended_witness :
    EthiopianDatePy.ETHIOPIAN_EPOCH ≤ 1724220 ∧
    ((EthiopianDatePy._jdn_to_ethiopian 1724220).1 =
      (specJdnToEth EthiopianDatePy.ETHIOPIAN_EPOCH 1724220).1 - 1 ∧
    (EthiopianDatePy._jdn_to_ethiopian 1724220).2 =
      (specJdnToEth EthiopianDatePy.ETHIOPIAN_EPOCH 1724220).2 ∧
    (CalendarPy._ETHIOPIAN_EPOCH ≤ 1724220 →
      (CalendarPy._jdn_to_eth 1724220).1 =
        (specJdnToEth CalendarPy._ETHIOPIAN_EPOCH 1724220).1 - 1 ∧
      (CalendarPy._jdn_to_eth 1724220).2 =
        (specJdnToEth CalendarPy._ETHIOPIAN_EPOCH 1724220).2)) :=
  ⟨by decide, c4_jdn_to_ethiopian_amended 1724220 (by decide)⟩

/-- C9 (confirmed): for every jdn on or after the epoch the uniform cycle
arithmetic already yields a structurally valid Ethiopian date — month 1..13,
day 1..30, and day 6 of month 13 only in a leap year of the computed year —
so the `month > 13` fix-up branch in `_jdn_to_ethiopian` is never taken (the
function equals the branch-free arithmetic), and `calendar.py`'s `_jdn_to_eth`
output is likewise always structurally valid. -/
theorem c9_jdn_to_ethiopian_always_valid (jdn : Int)
    (h : EthiopianDatePy.ETHIOPIAN_EPOCH ≤ jdn) :
    (EthiopianDatePy._jdn_to_ethiopian jdn =
      jdnToEthFields EthiopianDatePy.ETHIOPIAN_EPOCH jdn) ∧
    validEthDate (EthiopianDatePy._jdn_to_ethiopian jdn).1
      (EthiopianDatePy._jdn_to_ethiopian jdn).2.1
      (EthiopianDatePy._jdn_to_ethiopian jdn).2.2 ∧
    (CalendarPy._ETHIOPIAN_EPOCH ≤ jdn →
      validEthDate (CalendarPy._jdn_to_eth jdn).1
        (CalendarPy._jdn_to_eth jdn).2.1
        (CalendarPy._jdn_to_eth jdn).2.2) := by
  have key : ∀ epoch : Int, validEthDate (jdnToEthFields epoch jdn).1
      (jdnToEthFields epoch jdn).2.1 (jdnToEthFields epoch jdn).2.2 := by
    intro epoch
    have hv := jdnToEthFields_valid epoch jdn
    unfold validEthDate
    obtain ⟨h1, h2, h3, h4, h5⟩ := hv
    refine ⟨h1, h2, h3, fun _ => h4, fun h13 => ?_⟩
    rcases h5 h13 with h6 | ⟨h6, h7⟩
    · split <;> omega
    · rw [if_pos ((is_leap_iff _).mpr h7)]
      omega
  refine ⟨jdn_to_ethiopian_eq_fields jdn, ?_, fun h2 => ?_⟩
  · rw [jdn_to_ethiopian_eq_fields]
    exact key _
  · rw [jdn_to_eth_eq_fields]
    exact key _

/-- C9 witness: the statement evaluated at jdn = 1724220. -/
theorem c9_jdn_to_ethiopian_always_valid_witness :
    EthiopianDatePy.ETHIOPIAN_EPOCH ≤ 1724220 ∧
    ((EthiopianDatePy._jdn_to_ethiopian 1724220 =
      jdnToEthFields EthiopianDatePy.ETHIOPIAN_EPOCH 1724220) ∧
    validEthDate (EthiopianDatePy._jdn_to_ethiopian 1724220).1
      (EthiopianDatePy._jdn_to_ethiopian 1724220).2.1
      (EthiopianDatePy._jdn_to_ethiopian 1724220).2.2 ∧
    (CalendarPy._ETHIOPIAN_EPOCH ≤ 1724220 →
      validEthDate (CalendarPy._jdn_to_eth 1724220).1
        (CalendarPy._jdn_to_eth 1724220).2.1
        (CalendarPy._jdn_to_eth 1724220).2.2)) :=
  ⟨by decide, c9_jdn_to_ethiopian_always_valid 1724220 (by decide)⟩
/-- The host leap-year predicate, negative form. -/
theorem py_isLeapYear_false_iff (y : Int) :
    PyDatetime.isLeapYear y = false ↔ ¬ (y % 4 = 0 ∧ (y % 100 ≠ 0 ∨ y % 400 = 0)) := by
  rw [← py_isLeapYear_iff]
  cases PyDatetime.isLeapYear y <;> simp

/-- Case enumeration for a month variable in 1..12. -/
theorem month12cases (x : Int) (h1 : 1 ≤ x) (h2 : x ≤ 12) :
    x = 1 ∨ x = 2 ∨ x = 3 ∨ x = 4 ∨ x = 5 ∨ x = 6 ∨ x = 7 ∨ x = 8 ∨ x = 9 ∨
      x = 10 ∨ x = 11 ∨ x = 12 := by omega

/-- Case enumeration for a shifted month variable in 0..11. -/
theorem month12cases0 (x : Int) (h1 : 0 ≤ x) (h2 : x ≤ 11) :
    x = 0 ∨ x = 1 ∨ x = 2 ∨ x = 3 ∨ x = 4 ∨ x = 5 ∨ x = 6 ∨ x = 7 ∨ x = 8 ∨
      x = 9 ∨ x = 10 ∨ x = 11 := by omega

theorem leap_coordA_true (b d : Int) (hd0 : 0 ≤ d) (hd1 : d ≤ 99)
    (h : d % 4 = 0 ∧ (d ≠ 0 ∨ (100 * (b % 4) + d) % 400 = 0)) :
    PyDatetime.isLeapYear (100 * b + d - 4800) = true := by
  rw [py_isLeapYear_iff]
  omega

theorem leap_coordA_false (b d : Int) (hd0 : 0 ≤ d) (hd1 : d ≤ 99)
    (h : ¬ (d % 4 = 0 ∧ (d ≠ 0 ∨ (100 * (b % 4) + d) % 400 = 0))) :
    PyDatetime.isLeapYear (100 * b + d - 4800) = false := by
  rw [py_isLeapYear_false_iff]
  omega

theorem leap_coordB_true (b d : Int) (hd0 : 0 ≤ d) (hd1 : d ≤ 99)
    (h : (d + 1) % 4 = 0 ∧ ((d + 1) % 100 ≠ 0 ∨ (100 * (b % 4) + d + 1) % 400 = 0)) :
    PyDatetime.isLeapYear (100 * b + d - 4800 + 1) = true := by
  rw [py_isLeapYear_iff]
  omega

theorem leap_coordB_false (b d : Int) (hd0 : 0 ≤ d) (hd1 : d ≤ 99)
    (h : ¬ ((d + 1) % 4 = 0 ∧ ((d + 1) % 100 ≠ 0 ∨ (100 * (b % 4) + d + 1) % 400 = 0))) :
    PyDatetime.isLeapYear (100 * b + d - 4800 + 1) = false := by
  rw [py_isLeapYear_false_iff]
  omega

theorem keyA_true (b d : Int) (hd0 : 0 ≤ d) (hd1 : d ≤ 99)
    (h : d % 4 = 0 ∧ (d ≠ 0 ∨ (100 * (b % 4) + d) % 400 = 0)) :
    (d + 3) / 4 - (d + 99) / 100 + (100 * (b % 4) + d + 399) / 400 = d / 4 := by
  omega

theorem keyA_false (b d : Int) (hd0 : 0 ≤ d) (hd1 : d ≤ 99)
    (h : ¬ (d % 4 = 0 ∧ (d ≠ 0 ∨ (100 * (b % 4) + d) % 400 = 0))) :
    (d + 3) / 4 - (d + 99) / 100 + (100 * (b % 4) + d + 399) / 400 = d / 4 + 1 := by
  omega

theorem keyB (b d : Int) (hd0 : 0 ≤ d) (hd1 : d ≤ 99) :
    d / 100 = 0 ∧ (100 * (b % 4) + d) / 400 = 0 := by
  omega

set_option maxHeartbeats 4000000 in
/-- Core correctness of the modelled `fromordinal`: on the decomposition
of `n - 1` into 400/100/4/1-year cycles, the computed fields form a valid
date mapped back to `n` by `toOrdinal`. -/
theorem fromOrdinalFields_correct_aux (n n400 n100 n4 n1 r1 : Int)
    (hnlo : 1 ≤ n) (hnhi : n ≤ 3652059)
    (h0 : 0 ≤ n400) (h0b : n400 ≤ 24)
    (h1 : 0 ≤ n100) (h2 : 0 ≤ n4) (h3 : 0 ≤ n1) (h4 : 0 ≤ r1)
    (h5 : r1 ≤ 364) (h6 : 365 * n1 + r1 ≤ 1460)
    (h7 : 1461 * n4 + 365 * n1 + r1 ≤ 36523)
    (h8 : 36524 * n100 + 1461 * n4 + 365 * n1 + r1 ≤ 146096)
    (hn : n - 1 = 146097 * n400 + 36524 * n100 + 1461 * n4 + 365 * n1 + r1) :
    PyDatetime.validDate (PyDatetime.fromOrdinalFields n).1 (PyDatetime.fromOrdinalFields n).2.1 (PyDatetime.fromOrdinalFields n).2.2 ∧
    PyDatetime.toOrdinal (PyDatetime.fromOrdinalFields n).1 (PyDatetime.fromOrdinalFields n).2.1 (PyDatetime.fromOrdinalFields n).2.2 = n := by
  have e400 : (n - 1) / 146097 = n400 := by omega
  have er400 : (n - 1) % 146097 = 36524 * n100 + 1461 * n4 + 365 * n1 + r1 := by omega
  unfold PyDatetime.fromOrdinalFields
  dsimp only
  rw [e400, er400]
  have e100 : (36524 * n100 + 1461 * n4 + 365 * n1 + r1) / 36524 = n100 := by omega
  have er100 : (36524 * n100 + 1461 * n4 + 365 * n1 + r1) % 36524 = 1461 * n4 + 365 * n1 + r1 := by omega
  rw [e100, er100]
  have e4 : (1461 * n4 + 365 * n1 + r1) / 1461 = n4 := by omega
  have er4 : (1461 * n4 + 365 * n1 + r1) % 1461 = 365 * n1 + r1 := by omega
  rw [e4, er4]
  have e1 : (365 * n1 + r1) / 365 = n1 := by omega
  have er1 : (365 * n1 + r1) % 365 = r1 := by omega
  rw [e1, er1]
  clear e400 er400 e100 er100 e4 er4 e1 er1
  rcases Classical.em (n1 = 4 ∨ n100 = 4) with hbr | hbr
  · rw [if_pos hbr]
    have hz : (n1 = 4 ∧ n4 ≤ 23 ∧ r1 = 0) ∨ (n100 = 4 ∧ n4 = 0 ∧ n1 = 0 ∧ r1 = 0) := by omega
    have hLeap : PyDatetime.isLeapYear (n400 * 400 + 1 + n100 * 100 + n4 * 4 + n1 - 1) = true := by
      rw [py_isLeapYear_iff]
      omega
    have hA : (n400 * 400 + 1 + n100 * 100 + n4 * 4 + n1 - 1 - 1) / 4 =
        100 * n400 + 25 * n100 + n4 + (n1 - 1) / 4 := by omega
    have hB : (n400 * 400 + 1 + n100 * 100 + n4 * 4 + n1 - 1 - 1) / 100 =
        4 * n400 + n100 + (4 * n4 + n1 - 1) / 100 := by omega
    have hC : (n400 * 400 + 1 + n100 * 100 + n4 * 4 + n1 - 1 - 1) / 400 =
        n400 + (100 * n100 + 4 * n4 + n1 - 1) / 400 := by omega
    unfold PyDatetime.validDate PyDatetime.toOrdinal PyDatetime.daysBeforeMonth PyDatetime.daysInMonth
    dsimp only
    rw [hA, hB, hC, hLeap]
    simp only [eq_self_iff_true, if_true, and_true]
    split_ifs <;> omega
  · rw [if_neg hbr]
    have hn13 : n1 ≤ 3 := by omega
    have hn1003 : n100 ≤ 3 := by omega
    have hA : (n400 * 400 + 1 + n100 * 100 + n4 * 4 + n1 - 1) / 4 =
        100 * n400 + 25 * n100 + n4 := by omega
    have hB : (n400 * 400 + 1 + n100 * 100 + n4 * 4 + n1 - 1) / 100 =
        4 * n400 + n100 := by omega
    have hC : (n400 * 400 + 1 + n100 * 100 + n4 * 4 + n1 - 1) / 400 = n400 := by omega
    by_cases hLP : n1 = 3 ∧ (n4 ≠ 24 ∨ n100 = 3)
    · have hcode : (n1 == 3 && (!(n4 == 24) || n100 == 3)) = true := by
        rw [Bool.and_eq_true, beq_iff_eq, Bool.or_eq_true, Bool.not_eq_true',
          beq_eq_false_iff_ne, beq_iff_eq]
        exact hLP
      have hLeap : PyDatetime.isLeapYear (n400 * 400 + 1 + n100 * 100 + n4 * 4 + n1) = true := by
        rw [py_isLeapYear_iff]
        omega
      rw [hcode]
      simp only [eq_self_iff_true, and_true]
      split_ifs <;>
        (try unfold PyDatetime.validDate
         try unfold PyDatetime.toOrdinal
         try unfold PyDatetime.daysBeforeMonth
         try unfold PyDatetime.daysInMonth
         try simp only [PyDatetime.daysBeforeMonthTable, PyDatetime.daysInMonthTable] at *
         try dsimp only
         rw [hLeap, hA, hB, hC]
         simp only [eq_self_iff_true, if_true, and_true]
         try split_ifs at * <;> try simp only [eq_self_iff_true, if_true, and_true] at *
         all_goals try omega
         all_goals rcases month12cases ((r1 + 50) / 32) (by omega) (by omega) with he|he|he|he|he|he|he|he|he|he|he|he <;> omega)
    · have hcode : (n1 == 3 && (!(n4 == 24) || n100 == 3)) = false := by
        cases hc : (n1 == 3 && (!(n4 == 24) || n100 == 3))
        · rfl
        · rw [Bool.and_eq_true, beq_iff_eq, Bool.or_eq_true, Bool.not_eq_true',
            beq_eq_false_iff_ne, beq_iff_eq] at hc
          exact absurd hc hLP
      have hLeap : PyDatetime.isLeapYear (n400 * 400 + 1 + n100 * 100 + n4 * 4 + n1) = false := by
        rw [py_isLeapYear_false_iff]
        omega
      rw [hcode]
      simp only [Bool.false_eq_true, and_false, if_false]
      split_ifs <;>
        (try unfold PyDatetime.validDate
         try unfold PyDatetime.toOrdinal
         try unfold PyDatetime.daysBeforeMonth
         try unfold PyDatetime.daysInMonth
         try simp only [PyDatetime.daysBeforeMonthTable, PyDatetime.daysInMonthTable] at *
         try dsimp only
         rw [hLeap, hA, hB, hC]
         simp only [Bool.false_eq_true, if_false, and_false]
         try split_ifs at * <;> try simp only [Bool.false_eq_true, if_false, and_false] at *
         all_goals try omega
         all_goals rcases month12cases ((r1 + 50) / 32) (by omega) (by omega) with he|he|he|he|he|he|he|he|he|he|he|he <;> omega)

/-- The modelled `fromordinal` is a right inverse of `toOrdinal` on the host
ordinal range, with valid output. -/
theorem fromOrdinalFields_correct (n : Int) (h1 : 1 ≤ n) (h2 : n ≤ 3652059) :
    PyDatetime.validDate (PyDatetime.fromOrdinalFields n).1 (PyDatetime.fromOrdinalFields n).2.1 (PyDatetime.fromOrdinalFields n).2.2 ∧
    PyDatetime.toOrdinal (PyDatetime.fromOrdinalFields n).1 (PyDatetime.fromOrdinalFields n).2.1 (PyDatetime.fromOrdinalFields n).2.2 = n :=
  fromOrdinalFields_correct_aux n ((n - 1) / 146097) ((n - 1) % 146097 / 36524)
    ((n - 1) % 146097 % 36524 / 1461) ((n - 1) % 146097 % 36524 % 1461 / 365)
    ((n - 1) % 146097 % 36524 % 1461 % 365)
    h1 h2 (by omega) (by omega) (by omega) (by omega) (by omega) (by omega)
    (by omega) (by omega) (by omega) (by omega) (by omega)

set_option maxHeartbeats 8000000 in
/-- Core correctness of the Fliegel–Van Flandern inverse: with the chain
variables of `_jdn_to_gregorian` abstracted, the computed fields form a
valid date whose `toOrdinal` is `j - 1721425`. -/
theorem fliegelFields_correct_aux (j a b p c d q e m : Int)
    (hj1 : 1721426 ≤ j) (hj2 : j ≤ 5373484)
    (ha : a = j + 32044)
    (hb : 146097 * b ≤ 4 * a + 3) (hb2 : 4 * a + 3 ≤ 146097 * b + 146096)
    (hp : 4 * p ≤ 146097 * b) (hp2 : 146097 * b ≤ 4 * p + 3)
    (hc : c = a - p)
    (hd : 1461 * d ≤ 4 * c + 3) (hd2 : 4 * c + 3 ≤ 1461 * d + 1460)
    (hq : 4 * q ≤ 1461 * d) (hq2 : 1461 * d ≤ 4 * q + 3)
    (he : e = c - q)
    (hm : 153 * m ≤ 5 * e + 2) (hm2 : 5 * e + 2 ≤ 153 * m + 152) :
    PyDatetime.validDate (100 * b + d - 4800 + m / 10) (m + 3 - 12 * (m / 10))
      (e - (153 * m + 2) / 5 + 1) ∧
    PyDatetime.toOrdinal (100 * b + d - 4800 + m / 10) (m + 3 - 12 * (m / 10))
      (e - (153 * m + 2) / 5 + 1) = j - 1721425 := by
  have hacd : a = 36524 * b + c + b / 4 := by omega
  have hce : c = 365 * d + e + d / 4 := by omega
  have hj : j = 36524 * b + 365 * d + e + b / 4 + d / 4 - 32044 := by omega
  have hcent : 1460 * d + 4 * e + 4 * (d / 4) ≤ 146093 + b % 4 := by omega
  have hq4e : 4 * e ≤ 1457 + d % 4 := by omega
  have hbb : 48 ≤ b ∧ b ≤ 148 := by omega
  have hdb : 0 ≤ d ∧ d ≤ 99 := by omega
  have heb : 0 ≤ e ∧ e ≤ 365 := by omega
  clear hb hb2 hp hp2 hc hd hd2 hq hq2 he hacd hce ha
  have hm0 : 0 ≤ m := by omega
  have hm11 : m ≤ 11 := by omega
  rcases month12cases0 m hm0 hm11 with hmv|hmv|hmv|hmv|hmv|hmv|hmv|hmv|hmv|hmv|hmv|hmv <;>
    subst hmv <;> norm_num
  · have hY4 : (100 * b + d - 4800 - 1) / 4 = 25 * b + (d + 3) / 4 - 1201 := by omega
    have hY100 : (100 * b + d - 4800 - 1) / 100 = b - 49 + (d + 99) / 100 := by omega
    have hY400 : (100 * b + d - 4800 - 1) / 400 =
        b / 4 - 13 + (100 * (b % 4) + d + 399) / 400 := by omega
    by_cases hLP : d % 4 = 0 ∧ (d ≠ 0 ∨ (100 * (b % 4) + d) % 400 = 0)
    · have hLeap : PyDatetime.isLeapYear (100 * b + d - 4800) = true :=
        leap_coordA_true b d (by omega) (by omega) hLP
      have hkey := keyA_true b d (by omega) (by omega) hLP
      unfold PyDatetime.validDate PyDatetime.toOrdinal PyDatetime.daysBeforeMonth PyDatetime.daysInMonth
      norm_num [hLeap]
      omega
    · have hLeap : PyDatetime.isLeapYear (100 * b + d - 4800) = false :=
        leap_coordA_false b d (by omega) (by omega) hLP
      have hkey := keyA_false b d (by omega) (by omega) hLP
      unfold PyDatetime.validDate PyDatetime.toOrdinal PyDatetime.daysBeforeMonth PyDatetime.daysInMonth
      norm_num [hLeap]
      omega
  · have hY4 : (100 * b + d - 4800 - 1) / 4 = 25 * b + (d + 3) / 4 - 1201 := by omega
    have hY100 : (100 * b + d - 4800 - 1) / 100 = b - 49 + (d + 99) / 100 := by omega
    have hY400 : (100 * b + d - 4800 - 1) / 400 =
        b / 4 - 13 + (100 * (b % 4) + d + 399) / 400 := by omega
    by_cases hLP : d % 4 = 0 ∧ (d ≠ 0 ∨ (100 * (b % 4) + d) % 400 = 0)
    · have hLeap : PyDatetime.isLeapYear (100 * b + d - 4800) = true :=
        leap_coordA_true b d (by omega) (by omega) hLP
      have hkey := keyA_true b d (by omega) (by omega) hLP
      unfold PyDatetime.validDate PyDatetime.toOrdinal PyDatetime.daysBeforeMonth PyDatetime.daysInMonth
      norm_num [hLeap]
      omega
    · have hLeap : PyDatetime.isLeapYear (100 * b + d - 4800) = false :=
        leap_coordA_false b d (by omega) (by omega) hLP
      have hkey := keyA_false b d (by omega) (by omega) hLP
      unfold PyDatetime.validDate PyDatetime.toOrdinal PyDatetime.daysBeforeMonth PyDatetime.daysInMonth
      norm_num [hLeap]
      omega
  · have hY4 : (100 * b + d - 4800 - 1) / 4 = 25 * b + (d + 3) / 4 - 1201 := by omega
    have hY100 : (100 * b + d - 4800 - 1) / 100 = b - 49 + (d + 99) / 100 := by omega
    have hY400 : (100 * b + d - 4800 - 1) / 400 =
        b / 4 - 13 + (100 * (b % 4) + d + 399) / 400 := by omega
    by_cases hLP : d % 4 = 0 ∧ (d ≠ 0 ∨ (100 * (b % 4) + d) % 400 = 0)
    · have hLeap : PyDatetime.isLeapYear (100 * b + d - 4800) = true :=
        leap_coordA_true b d (by omega) (by omega) hLP
      have hkey := keyA_true b d (by omega) (by omega) hLP
      unfold PyDatetime.validDate PyDatetime.toOrdinal PyDatetime.daysBeforeMonth PyDatetime.daysInMonth
      norm_num [hLeap]
      omega
    · have hLeap : PyDatetime.isLeapYear (100 * b + d - 4800) = false :=
        leap_coordA_false b d (by omega) (by omega) hLP
      have hkey := keyA_false b d (by omega) (by omega) hLP
      unfold PyDatetime.validDate PyDatetime.toOrdinal PyDatetime.daysBeforeMonth PyDatetime.daysInMonth
      norm_num [hLeap]
      omega
  · have hY4 : (100 * b + d - 4800 - 1) / 4 = 25 * b + (d + 3) / 4 - 1201 := by omega
    have hY100 : (100 * b + d - 4800 - 1) / 100 = b - 49 + (d + 99) / 100 := by omega
    have hY400 : (100 * b + d - 4800 - 1) / 400 =
        b / 4 - 13 + (100 * (b % 4) + d + 399) / 400 := by omega
    by_cases hLP : d % 4 = 0 ∧ (d ≠ 0 ∨ (100 * (b % 4) + d) % 400 = 0)
    · have hLeap : PyDatetime.isLeapYear (100 * b + d - 4800) = true :=
        leap_coordA_true b d (by omega) (by omega) hLP
      have hkey := keyA_true b d (by omega) (by omega) hLP
      unfold PyDatetime.validDate PyDatetime.toOrdinal PyDatetime.daysBeforeMonth PyDatetime.daysInMonth
      norm_num [hLeap]
      omega
    · have hLeap : PyDatetime.isLeapYear (100 * b + d - 4800) = false :=
        leap_coordA_false b d (by omega) (by omega) hLP
      have hkey := keyA_false b d (by omega) (by omega) hLP
      unfold PyDatetime.validDate PyDatetime.toOrdinal PyDatetime.daysBeforeMonth PyDatetime.daysInMonth
      norm_num [hLeap]
      omega
  · have hY4 : (100 * b + d - 4800 - 1) / 4 = 25 * b + (d + 3) / 4 - 1201 := by omega
    have hY100 : (100 * b + d - 4800 - 1) / 100 = b - 49 + (d + 99) / 100 := by omega
    have hY400 : (100 * b + d - 4800 - 1) / 400 =
        b / 4 - 13 + (100 * (b % 4) + d + 399) / 400 := by omega
    by_cases hLP : d % 4 = 0 ∧ (d ≠ 0 ∨ (100 * (b % 4) + d) % 400 = 0)
    · have hLeap : PyDatetime.isLeapYear (100 * b + d - 4800) = true :=
        leap_coordA_true b d (by omega) (by omega) hLP
      have hkey := keyA_true b d (by omega) (by omega) hLP
      unfold PyDatetime.validDate PyDatetime.toOrdinal PyDatetime.daysBeforeMonth PyDatetime.daysInMonth
      norm_num [hLeap]
      omega
    · have hLeap : PyDatetime.isLeapYear (100 * b + d - 4800) = false :=
        leap_coordA_false b d (by omega) (by omega) hLP
      have hkey := keyA_false b d (by omega) (by omega) hLP
      unfold PyDatetime.validDate PyDatetime.toOrdinal PyDatetime.daysBeforeMonth PyDatetime.daysInMonth
      norm_num [hLeap]
      omega
  · have hY4 : (100 * b + d - 4800 - 1) / 4 = 25 * b + (d + 3) / 4 - 1201 := by omega
    have hY100 : (100 * b + d - 4800 - 1) / 100 = b - 49 + (d + 99) / 100 := by omega
    have hY400 : (100 * b + d - 4800 - 1) / 400 =
        b / 4 - 13 + (100 * (b % 4) + d + 399) / 400 := by omega
    by_cases hLP : d % 4 = 0 ∧ (d ≠ 0 ∨ (100 * (b % 4) + d) % 400 = 0)
    · have hLeap : PyDatetime.isLeapYear (100 * b + d - 4800) = true :=
        leap_coordA_true b d (by omega) (by omega) hLP
      have hkey := keyA_true b d (by omega) (by omega) hLP
      unfold PyDatetime.validDate PyDatetime.toOrdinal PyDatetime.daysBeforeMonth PyDatetime.daysInMonth
      norm_num [hLeap]
      omega
    · have hLeap : PyDatetime.isLeapYear (100 * b + d - 4800) = false :=
        leap_coordA_false b d (by omega) (by omega) hLP
      have hkey := keyA_false b d (by omega) (by omega) hLP
      unfold PyDatetime.validDate PyDatetime.toOrdinal PyDatetime.daysBeforeMonth PyDatetime.daysInMonth
      norm_num [hLeap]
      omega
  · have hY4 : (100 * b + d - 4800 - 1) / 4 = 25 * b + (d + 3) / 4 - 1201 := by omega
    have hY100 : (100 * b + d - 4800 - 1) / 100 = b - 49 + (d + 99) / 100 := by omega
    have hY400 : (100 * b + d - 4800 - 1) / 400 =
        b / 4 - 13 + (100 * (b % 4) + d + 399) / 400 := by omega
    by_cases hLP : d % 4 = 0 ∧ (d ≠ 0 ∨ (100 * (b % 4) + d) % 400 = 0)
    · have hLeap : PyDatetime.isLeapYear (100 * b + d - 4800) = true :=
        leap_coordA_true b d (by omega) (by omega) hLP
      have hkey := keyA_true b d (by omega) (by omega) hLP
      unfold PyDatetime.validDate PyDatetime.toOrdinal PyDatetime.daysBeforeMonth PyDatetime.daysInMonth
      norm_num [hLeap]
      omega
    · have hLeap : PyDatetime.isLeapYear (100 * b + d - 4800) = false :=
        leap_coordA_false b d (by omega) (by omega) hLP
      have hkey := keyA_false b d (by omega) (by omega) hLP
      unfold PyDatetime.validDate PyDatetime.toOrdinal PyDatetime.daysBeforeMonth PyDatetime.daysInMonth
      norm_num [hLeap]
      omega
  · have hY4 : (100 * b + d - 4800 - 1) / 4 = 25 * b + (d + 3) / 4 - 1201 := by omega
    have hY100 : (100 * b + d - 4800 - 1) / 100 = b - 49 + (d + 99) / 100 := by omega
    have hY400 : (100 * b + d - 4800 - 1) / 400 =
        b / 4 - 13 + (100 * (b % 4) + d + 399) / 400 := by omega
    by_cases hLP : d % 4 = 0 ∧ (d ≠ 0 ∨ (100 * (b % 4) + d) % 400 = 0)
    · have hLeap : PyDatetime.isLeapYear (100 * b + d - 4800) = true :=
        leap_coordA_true b d (by omega) (by omega) hLP
      have hkey := keyA_true b d (by omega) (by omega) hLP
      unfold PyDatetime.validDate PyDatetime.toOrdinal PyDatetime.daysBeforeMonth PyDatetime.daysInMonth
      norm_num [hLeap]
      omega
    · have hLeap : PyDatetime.isLeapYear (100 * b + d - 4800) = false :=
        leap_coordA_false b d (by omega) (by omega) hLP
      have hkey := keyA_false b d (by omega) (by omega) hLP
      unfold PyDatetime.validDate PyDatetime.toOrdinal PyDatetime.daysBeforeMonth PyDatetime.daysInMonth
      norm_num [hLeap]
      omega
  · have hY4 : (100 * b + d - 4800 - 1) / 4 = 25 * b + (d + 3) / 4 - 1201 := by omega
    have hY100 : (100 * b + d - 4800 - 1) / 100 = b - 49 + (d + 99) / 100 := by omega
    have hY400 : (100 * b + d - 4800 - 1) / 400 =
        b / 4 - 13 + (100 * (b % 4) + d + 399) / 400 := by omega
    by_cases hLP : d % 4 = 0 ∧ (d ≠ 0 ∨ (100 * (b % 4) + d) % 400 = 0)
    · have hLeap : PyDatetime.isLeapYear (100 * b + d - 4800) = true :=
        leap_coordA_true b d (by omega) (by omega) hLP
      have hkey := keyA_true b d (by omega) (by omega) hLP
      unfold PyDatetime.validDate PyDatetime.toOrdinal PyDatetime.daysBeforeMonth PyDatetime.daysInMonth
      norm_num [hLeap]
      omega
    · have hLeap : PyDatetime.isLeapYear (100 * b + d - 4800) = false :=
        leap_coordA_false b d (by omega) (by omega) hLP
      have hkey := keyA_false b d (by omega) (by omega) hLP
      unfold PyDatetime.validDate PyDatetime.toOrdinal PyDatetime.daysBeforeMonth PyDatetime.daysInMonth
      norm_num [hLeap]
      omega
  · have hY4 : (100 * b + d - 4800 - 1) / 4 = 25 * b + (d + 3) / 4 - 1201 := by omega
    have hY100 : (100 * b + d - 4800 - 1) / 100 = b - 49 + (d + 99) / 100 := by omega
    have hY400 : (100 * b + d - 4800 - 1) / 400 =
        b / 4 - 13 + (100 * (b % 4) + d + 399) / 400 := by omega
    by_cases hLP : d % 4 = 0 ∧ (d ≠ 0 ∨ (100 * (b % 4) + d) % 400 = 0)
    · have hLeap : PyDatetime.isLeapYear (100 * b + d - 4800) = true :=
        leap_coordA_true b d (by omega) (by omega) hLP
      have hkey := keyA_true b d (by omega) (by omega) hLP
      unfold PyDatetime.validDate PyDatetime.toOrdinal PyDatetime.daysBeforeMonth PyDatetime.daysInMonth
      norm_num [hLeap]
      omega
    · have hLeap : PyDatetime.isLeapYear (100 * b + d - 4800) = false :=
        leap_coordA_false b d (by omega) (by omega) hLP
      have hkey := keyA_false b d (by omega) (by omega) hLP
      unfold PyDatetime.validDate PyDatetime.toOrdinal PyDatetime.daysBeforeMonth PyDatetime.daysInMonth
      norm_num [hLeap]
      omega
  · have hY4 : (100 * b + d - 4800) / 4 = 25 * b + d / 4 - 1200 := by omega
    have hY100 : (100 * b + d - 4800) / 100 = b - 48 := by omega
    have hY400 : (100 * b + d - 4800) / 400 = b / 4 - 12 := by omega
    have hkey := keyB b d (by omega) (by omega)
    unfold PyDatetime.validDate PyDatetime.toOrdinal PyDatetime.daysBeforeMonth PyDatetime.daysInMonth
    norm_num
    omega
  · have hY4 : (100 * b + d - 4800) / 4 = 25 * b + d / 4 - 1200 := by omega
    have hY100 : (100 * b + d - 4800) / 100 = b - 48 := by omega
    have hY400 : (100 * b + d - 4800) / 400 = b / 4 - 12 := by omega
    have hkey := keyB b d (by omega) (by omega)
    by_cases hLP : (d + 1) % 4 = 0 ∧ ((d + 1) % 100 ≠ 0 ∨ (100 * (b % 4) + d + 1) % 400 = 0)
    · have hLeap : PyDatetime.isLeapYear (100 * b + d - 4800 + 1) = true :=
        leap_coordB_true b d (by omega) (by omega) hLP
      unfold PyDatetime.validDate PyDatetime.toOrdinal PyDatetime.daysBeforeMonth PyDatetime.daysInMonth
      norm_num [hLeap]
      rcases Classical.em (e = 365) with he365 | he365
      · have hd3 : d % 4 = 3 := by omega
        have hk1 : (d + 1) / 4 = d / 4 + 1 := by omega
        omega
      · have he364 : e ≤ 364 := by omega
        omega
    · have hLeap : PyDatetime.isLeapYear (100 * b + d - 4800 + 1) = false :=
        leap_coordB_false b d (by omega) (by omega) hLP
      unfold PyDatetime.validDate PyDatetime.toOrdinal PyDatetime.daysBeforeMonth PyDatetime.daysInMonth
      norm_num [hLeap]
      rcases Classical.em (e = 365) with he365 | he365
      · exfalso
        have hd3 : d % 4 = 3 := by omega
        have hb3 : b % 4 = 3 := by omega
        have hd99 : d = 99 := by omega
        omega
      · have he364 : e ≤ 364 := by omega
        omega

/-- `_jdn_to_gregorian` produces a valid date whose ordinal is
`jdn - 1721425`, for every JDN in the host range. -/
theorem jdn_to_gregorian_correct (j : Int) (h1 : 1721426 ≤ j) (h2 : j ≤ 5373484) :
    PyDatetime.validDate (EthiopianDatePy._jdn_to_gregorian j).1 (EthiopianDatePy._jdn_to_gregorian j).2.1 (EthiopianDatePy._jdn_to_gregorian j).2.2 ∧
    PyDatetime.toOrdinal (EthiopianDatePy._jdn_to_gregorian j).1 (EthiopianDatePy._jdn_to_gregorian j).2.1 (EthiopianDatePy._jdn_to_gregorian j).2.2 = j - 1721425 := by
  unfold EthiopianDatePy._jdn_to_gregorian
  dsimp only
  exact fliegelFields_correct_aux j (j + 32044) ((4 * (j + 32044) + 3) / 146097)
    (146097 * ((4 * (j + 32044) + 3) / 146097) / 4)
    (j + 32044 - 146097 * ((4 * (j + 32044) + 3) / 146097) / 4)
    ((4 * (j + 32044 - 146097 * ((4 * (j + 32044) + 3) / 146097) / 4) + 3) / 1461)
    (1461 * ((4 * (j + 32044 - 146097 * ((4 * (j + 32044) + 3) / 146097) / 4) + 3) / 1461) / 4)
    (j + 32044 - 146097 * ((4 * (j + 32044) + 3) / 146097) / 4 -
      1461 * ((4 * (j + 32044 - 146097 * ((4 * (j + 32044) + 3) / 146097) / 4) + 3) / 1461) / 4)
    ((5 * (j + 32044 - 146097 * ((4 * (j + 32044) + 3) / 146097) / 4 -
      1461 * ((4 * (j + 32044 - 146097 * ((4 * (j + 32044) + 3) / 146097) / 4) + 3) / 1461) / 4) + 2) / 153)
    h1 h2 rfl (by omega) (by omega) (by omega) (by omega) rfl
    (by omega) (by omega) (by omega) (by omega) rfl (by omega) (by omega)

/-- The day-of-year offset of a valid date lies in `1 .. 365 (+1)`. -/
theorem dayOfYear_bound (y m d : Int) (hm1 : 1 ≤ m) (hm2 : m ≤ 12)
    (hd1 : 1 ≤ d) (hd2 : d ≤ PyDatetime.daysInMonth y m) :
    1 ≤ PyDatetime.daysBeforeMonth y m + d ∧
      PyDatetime.daysBeforeMonth y m + d ≤ 365 + (if PyDatetime.isLeapYear y then 1 else 0) := by
  unfold PyDatetime.daysBeforeMonth PyDatetime.daysInMonth at *
  cases hL : PyDatetime.isLeapYear y <;> rw [hL] at hd2 <;>
    rcases month12cases m hm1 hm2 with hv|hv|hv|hv|hv|hv|hv|hv|hv|hv|hv|hv <;>
    subst hv <;> norm_num at hd2 ⊢ <;> omega

/-- The day-of-year offset is strictly monotone in (month, day). -/
theorem dayOfYear_mono (y m1 d1 m2 d2 : Int) (hm1 : 1 ≤ m1) (hm2 : m1 ≤ 12)
    (hd1 : 1 ≤ d1) (hd2 : d1 ≤ PyDatetime.daysInMonth y m1)
    (hm1' : 1 ≤ m2) (hm2' : m2 ≤ 12) (hd1' : 1 ≤ d2)
    (hlt : m1 < m2 ∨ (m1 = m2 ∧ d1 < d2)) :
    PyDatetime.daysBeforeMonth y m1 + d1 < PyDatetime.daysBeforeMonth y m2 + d2 := by
  unfold PyDatetime.daysBeforeMonth PyDatetime.daysInMonth at *
  cases hL : PyDatetime.isLeapYear y <;> rw [hL] at hd2 <;>
    rcases month12cases m1 hm1 hm2 with hv|hv|hv|hv|hv|hv|hv|hv|hv|hv|hv|hv <;>
    subst hv <;>
    rcases month12cases m2 hm1' hm2' with hv2|hv2|hv2|hv2|hv2|hv2|hv2|hv2|hv2|hv2|hv2|hv2 <;>
    subst hv2 <;> norm_num at hd2 ⊢ <;> omega

set_option maxHeartbeats 1000000 in
/-- `toOrdinal` is strictly monotone with respect to calendar order on
valid dates. -/
theorem toOrdinal_lt_of_lex (y1 m1 d1 y2 m2 d2 : Int)
    (h1 : PyDatetime.validDate y1 m1 d1) (h2 : PyDatetime.validDate y2 m2 d2)
    (hlex : lexLt3 y1 m1 d1 y2 m2 d2) :
    PyDatetime.toOrdinal y1 m1 d1 < PyDatetime.toOrdinal y2 m2 d2 := by
  obtain ⟨ha1, ha2, ha3, ha4, ha5, ha6⟩ := h1
  obtain ⟨hb1, hb2, hb3, hb4, hb5, hb6⟩ := h2
  rcases hlex with hy | ⟨hy, hmd⟩
  · have hu := dayOfYear_bound y1 m1 d1 ha3 ha4 ha5 ha6
    have hl := dayOfYear_bound y2 m2 d2 hb3 hb4 hb5 hb6
    unfold PyDatetime.toOrdinal
    have hL1 := py_isLeapYear_iff y1
    cases hLc : PyDatetime.isLeapYear y1 <;> simp [hLc] at hu hL1 <;> omega
  · subst hy
    have hstep := dayOfYear_mono y1 m1 d1 m2 d2 ha3 ha4 ha5 ha6 hb3 hb4 hb5 hmd
    unfold PyDatetime.toOrdinal
    omega

/-- `toOrdinal` is injective on valid dates. -/
theorem toOrdinal_inj (y1 m1 d1 y2 m2 d2 : Int)
    (h1 : PyDatetime.validDate y1 m1 d1) (h2 : PyDatetime.validDate y2 m2 d2)
    (heq : PyDatetime.toOrdinal y1 m1 d1 = PyDatetime.toOrdinal y2 m2 d2) :
    y1 = y2 ∧ m1 = m2 ∧ d1 = d2 := by
  by_contra hne
  have htri : lexLt3 y1 m1 d1 y2 m2 d2 ∨ lexLt3 y2 m2 d2 y1 m1 d1 := by
    unfold lexLt3
    omega
  rcases htri with ht | ht
  · exact absurd heq (ne_of_lt (toOrdinal_lt_of_lex _ _ _ _ _ _ h1 h2 ht))
  · exact absurd heq.symm (ne_of_lt (toOrdinal_lt_of_lex _ _ _ _ _ _ h2 h1 ht))

/-- The modelled `fromordinal` is strictly monotone: larger ordinals give
lexicographically later dates. -/
theorem fromOrdinalFields_lt (n1 n2 : Int) (ha1 : 1 ≤ n1) (ha2 : n1 ≤ 3652059)
    (hb1 : 1 ≤ n2) (hb2 : n2 ≤ 3652059) (hlt : n1 < n2) :
    lexLt3 (PyDatetime.fromOrdinalFields n1).1 (PyDatetime.fromOrdinalFields n1).2.1 (PyDatetime.fromOrdinalFields n1).2.2
      (PyDatetime.fromOrdinalFields n2).1 (PyDatetime.fromOrdinalFields n2).2.1 (PyDatetime.fromOrdinalFields n2).2.2 := by
  obtain ⟨hv1, ho1⟩ := fromOrdinalFields_correct n1 ha1 ha2
  obtain ⟨hv2, ho2⟩ := fromOrdinalFields_correct n2 hb1 hb2
  by_contra hnot
  have htri : (PyDatetime.fromOrdinalFields n1).1 = (PyDatetime.fromOrdinalFields n2).1 ∧
      (PyDatetime.fromOrdinalFields n1).2.1 = (PyDatetime.fromOrdinalFields n2).2.1 ∧
      (PyDatetime.fromOrdinalFields n1).2.2 = (PyDatetime.fromOrdinalFields n2).2.2 ∨
      lexLt3 (PyDatetime.fromOrdinalFields n2).1 (PyDatetime.fromOrdinalFields n2).2.1 (PyDatetime.fromOrdinalFields n2).2.2
        (PyDatetime.fromOrdinalFields n1).1 (PyDatetime.fromOrdinalFields n1).2.1 (PyDatetime.fromOrdinalFields n1).2.2 := by
    unfold lexLt3 at *
    omega
  rcases htri with ⟨e1, e2, e3⟩ | ht
  · rw [e1, e2, e3] at ho1
    omega
  · have := toOrdinal_lt_of_lex _ _ _ _ _ _ hv2 hv1 ht
    omega

set_option maxHeartbeats 1000000 in
/-- `_gregorian_to_jdn` (the astronomical formula) agrees with the host
`toordinal` plus 1721425 on every valid host date. -/
theorem gregorian_to_jdn_eq_toOrdinal (y m d : Int) (h : PyDatetime.validDate y m d) :
    EthiopianDatePy._gregorian_to_jdn y m d = PyDatetime.toOrdinal y m d + 1721425 := by
  obtain ⟨hy1, hy2, hm1, hm2, hd1, hd2⟩ := h
  unfold PyDatetime.daysInMonth at hd2
  unfold EthiopianDatePy._gregorian_to_jdn PyDatetime.toOrdinal PyDatetime.daysBeforeMonth
  dsimp only
  by_cases hL : PyDatetime.isLeapYear y = true
  · have hPt := (py_isLeapYear_iff y).mp hL
    simp only [hL, if_true] at hd2 ⊢
    interval_cases m <;> norm_num at hd2 ⊢ <;> omega
  · have hPf : ¬ (y % 4 = 0 ∧ (y % 100 ≠ 0 ∨ y % 400 = 0)) :=
      fun hP => hL ((py_isLeapYear_iff y).mpr hP)
    rw [Bool.not_eq_true] at hL
    simp only [hL, Bool.false_eq_true, if_false] at hd2 ⊢
    interval_cases m <;> norm_num at hd2 ⊢ <;> omega

/-- The leap-aware Ethiopian validity predicate in arithmetic form. -/
theorem validEthDate_arith (y m d : Int) :
    validEthDate y m d ↔
      (1 ≤ m ∧ m ≤ 13 ∧ 1 ≤ d ∧ (m ≤ 12 → d ≤ 30) ∧
        (m = 13 → d ≤ 5 ∨ (d = 6 ∧ y % 4 = 3))) := by
  unfold validEthDate
  have hiff := is_leap_iff y
  cases hL : EthiopianDatePy._is_ethiopian_leap_year y <;>
    simp only [hL, Bool.false_eq_true, if_false, if_true] <;>
    simp only [hL, Bool.false_eq_true, false_iff, true_iff] at hiff <;>
    constructor <;> intro hh <;>
    refine ⟨hh.1, hh.2.1, hh.2.2.1, hh.2.2.2.1, fun h13 => ?_⟩ <;>
    have := hh.2.2.2.2 h13 <;> omega

/-- On a valid Ethiopian date, `calendar.py`'s `_eth_to_jdn` passes its
validation and returns its formula value. -/
theorem eth_to_jdn_of_valid (y m d : Int) (h : validEthDate y m d) :
    CalendarPy._eth_to_jdn y m d =
      some (CalendarPy._ETHIOPIAN_EPOCH + 365 * (y - 1) + y / 4 + 30 * (m - 1) + d - 1) := by
  rw [validEthDate_arith] at h
  unfold CalendarPy._eth_to_jdn
  rw [if_neg (by omega), if_neg (by omega)]

/-- C8 (amended): only `calendar.py`'s route validates Gregorian inputs:
`GregDate.to_ethiopian` fails exactly on host-invalid dates, rejecting
30 February and 29 February of non-leap years while accepting 29 February of
leap years. -/
theorem c8_gregorian_validation_amended :
    (∀ y m d : Int, (CalendarPy.GregDate.to_ethiopian ⟨y, m, d⟩).isSome ↔
      PyDatetime.validDate y m d) ∧
    CalendarPy._greg_to_jdn 2023 2 30 = none ∧
    CalendarPy._greg_to_jdn 2023 2 29 = none ∧
    (CalendarPy._greg_to_jdn 2024 2 29).isSome = true := by
  refine ⟨fun y m d => ?_, by decide, by decide, by decide⟩
  unfold CalendarPy.GregDate.to_ethiopian CalendarPy._greg_to_jdn
  dsimp only
  split
  · rename_i hv
    simpa using hv
  · rename_i hv
    simpa using hv

/-- C10 (confirmed): the two Gregorian-side implementations agree.  On every
valid host date, `calendar.py`'s `_greg_to_jdn` (ordinal + 1721425) returns
exactly `ethiopian_date.py`'s `_gregorian_to_jdn` (astronomical formula), and
on the corresponding JDN range `_jdn_to_greg` and `_jdn_to_gregorian` return
the same (year, month, day). -/
theorem c10_gregorian_implementations_agree :
    (∀ y m d : Int, PyDatetime.validDate y m d →
      CalendarPy._greg_to_jdn y m d = some (EthiopianDatePy._gregorian_to_jdn y m d)) ∧
    (∀ j : Int, 1721426 ≤ j → j ≤ 5373484 →
      CalendarPy._jdn_to_greg j = some (EthiopianDatePy._jdn_to_gregorian j)) := by
  constructor
  · intro y m d hv
    unfold CalendarPy._greg_to_jdn
    rw [if_pos hv, gregorian_to_jdn_eq_toOrdinal y m d hv]
  · intro j h1 h2
    obtain ⟨hv1, ho1⟩ := fromOrdinalFields_correct (j - 1721425) (by omega) (by omega)
    obtain ⟨hv2, ho2⟩ := jdn_to_gregorian_correct j h1 h2
    have hinj := toOrdinal_inj _ _ _ _ _ _ hv1 hv2 (by omega)
    unfold CalendarPy._jdn_to_greg PyDatetime.fromOrdinal
    rw [if_pos (by unfold PyDatetime.maxOrdinal; omega)]
    obtain ⟨q1, q2, q3⟩ := hinj
    exact congrArg some (Prod.ext_iff.mpr ⟨q1, Prod.ext_iff.mpr ⟨q2, q3⟩⟩)

/-- C10 witness: both halves applied at the anchor date / JDN. -/
theorem c10_gregorian_implementations_agree_witness :
    (PyDatetime.validDate 2023 9 11 ∧
      CalendarPy._greg_to_jdn 2023 9 11 =
        some (EthiopianDatePy._gregorian_to_jdn 2023 9 11)) ∧
    ((1721426 : Int) ≤ 2460199 ∧ (2460199 : Int) ≤ 5373484 ∧
      CalendarPy._jdn_to_greg 2460199 =
        some (EthiopianDatePy._jdn_to_gregorian 2460199)) :=
  ⟨⟨by decide, c10_gregorian_implementations_agree.1 2023 9 11 (by decide)⟩,
   ⟨by decide, by decide,
     c10_gregorian_implementations_agree.2 2460199 (by decide) (by decide)⟩⟩

/-- C7 (counterexample): the leap-valid dates (3, 13, 6) and (4, 1, 1) are in
strict calendar order but `_ethiopian_to_jdn` maps them to the same JDN, so
strict monotonicity fails for `ethiopian_date.py`. -/
theorem c7_monotonicity_counterexample :
    validEthDate 3 13 6 ∧ validEthDate 4 1 1 ∧ lexLt3 3 13 6 4 1 1 ∧
    EthiopianDatePy._ethiopian_to_jdn 3 13 6 = EthiopianDatePy._ethiopian_to_jdn 4 1 1 := by
  refine ⟨by decide, by decide, by decide, by decide⟩

/-- C7 (amended): strict monotonicity holds for `calendar.py`'s `_eth_to_jdn`
— calendar order gives strictly increasing JDNs, and the Gregorian dates
produced by the full `EthDate.to_gregorian` conversion preserve the order —
while `ethiopian_date.py`'s `_ethiopian_to_jdn` is only weakly monotone (it
merges Pagume 6 of a leap year with New Year's Day of the following year). -/
theorem c7_monotonicity_amended (y1 m1 d1 y2 m2 d2 : Int)
    (h1 : validEthDate y1 m1 d1) (h2 : validEthDate y2 m2 d2)
    (hlex : lexLt3 y1 m1 d1 y2 m2 d2) :
    (∃ j1 j2 : Int, CalendarPy._eth_to_jdn y1 m1 d1 = some j1 ∧
      CalendarPy._eth_to_jdn y2 m2 d2 = some j2 ∧ j1 < j2) ∧
    EthiopianDatePy._ethiopian_to_jdn y1 m1 d1 ≤
      EthiopianDatePy._ethiopian_to_jdn y2 m2 d2 ∧
    (∀ g1 g2 : CalendarPy.GregDate,
      CalendarPy.EthDate.to_gregorian ⟨y1, m1, d1⟩ = some g1 →
      CalendarPy.EthDate.to_gregorian ⟨y2, m2, d2⟩ = some g2 →
      lexLt3 g1.year g1.month g1.day g2.year g2.month g2.day) := by
  have ha := (validEthDate_arith _ _ _).mp h1
  have hb := (validEthDate_arith _ _ _).mp h2
  have e1 := eth_to_jdn_of_valid y1 m1 d1 h1
  have e2 := eth_to_jdn_of_valid y2 m2 d2 h2
  unfold lexLt3 at hlex
  have hjlt : CalendarPy._ETHIOPIAN_EPOCH + 365 * (y1 - 1) + y1 / 4 + 30 * (m1 - 1) + d1 - 1 <
      CalendarPy._ETHIOPIAN_EPOCH + 365 * (y2 - 1) + y2 / 4 + 30 * (m2 - 1) + d2 - 1 := by
    omega
  refine ⟨⟨_, _, e1, e2, hjlt⟩, ?_, ?_⟩
  · unfold EthiopianDatePy._ethiopian_to_jdn
    omega
  · intro g1 g2 hg1 hg2
    unfold CalendarPy.EthDate.to_gregorian at hg1 hg2
    dsimp only at hg1 hg2
    rw [e1] at hg1
    rw [e2] at hg2
    rw [Option.some_bind] at hg1 hg2
    unfold CalendarPy._jdn_to_greg PyDatetime.fromOrdinal at hg1 hg2
    set n1 : Int := CalendarPy._ETHIOPIAN_EPOCH + 365 * (y1 - 1) + y1 / 4
      + 30 * (m1 - 1) + d1 - 1 - 1721425 with hn1
    set n2 : Int := CalendarPy._ETHIOPIAN_EPOCH + 365 * (y2 - 1) + y2 / 4
      + 30 * (m2 - 1) + d2 - 1 - 1721425 with hn2
    rcases Classical.em (1 ≤ n1 ∧ n1 ≤ PyDatetime.maxOrdinal) with hr1 | hr1
    · rcases Classical.em (1 ≤ n2 ∧ n2 ≤ PyDatetime.maxOrdinal) with hr2 | hr2
      · rw [if_pos hr1] at hg1
        rw [if_pos hr2] at hg2
        rw [Option.map_some', Option.some_inj] at hg1 hg2
        have hmono := fromOrdinalFields_lt n1 n2 hr1.1
          (by have := hr1.2; unfold PyDatetime.maxOrdinal at this; omega)
          hr2.1 (by have := hr2.2; unfold PyDatetime.maxOrdinal at this; omega)
          (by omega)
        rw [← hg1, ← hg2]
        exact hmono
      · rw [if_neg hr2] at hg2
        simp at hg2
    · rw [if_neg hr1] at hg1
      simp at hg1

/-- C7 witness: the amended statement applied at (2015, 13, 5) < (2016, 1, 1). -/
theorem c7_monotonicity_amended_witness :
    validEthDate 2015 13 5 ∧ validEthDate 2016 1 1 ∧ lexLt3 2015 13 5 2016 1 1 ∧
    ((∃ j1 j2 : Int, CalendarPy._eth_to_jdn 2015 13 5 = some j1 ∧
      CalendarPy._eth_to_jdn 2016 1 1 = some j2 ∧ j1 < j2) ∧
    EthiopianDatePy._ethiopian_to_jdn 2015 13 5 ≤
      EthiopianDatePy._ethiopian_to_jdn 2016 1 1 ∧
    (∀ g1 g2 : CalendarPy.GregDate,
      CalendarPy.EthDate.to_gregorian ⟨2015, 13, 5⟩ = some g1 →
      CalendarPy.EthDate.to_gregorian ⟨2016, 1, 1⟩ = some g2 →
      lexLt3 g1.year g1.month g1.day g2.year g2.month g2.day)) :=
  ⟨by decide, by decide, by decide,
    c7_monotonicity_amended 2015 13 5 2016 1 1 (by decide) (by decide) (by decide)⟩
